import Mathlib

/-!
Shallow embedding of the L10 hand driver (`src/device/models/l10.go`,
package `models`) — the command-execution pipeline: payload validation,
randomized perturbation, wire-format encoding, dispatch with error
bookkeeping, and the sequencing used by preset execution and reset.

Modelling conventions:
* Bytes are `Nat` (values < 256 where the source guarantees it).
* Timestamps are abstract `Nat` values; `time.Now()` becomes a `now`
  parameter.
* `rand.IntN n` becomes an explicitly supplied draw `r`, used as
  `r % n` (always in `[0, n)`, as the Go API guarantees).
* The transport (`communicator.SendMessage`) is an external collaborator:
  it is a parameter mapping the message to `none` (success) or
  `some err` (failure).  The 3-second context deadline is absorbed into
  that outcome — a timeout surfaces as a send failure.
* Stateful methods on `*L10Hand` become functions from the hand value to
  a `StepResult`: the Go return value, the updated hand, and a trace of
  externally visible events (transport sends and sleeps), which lets the
  theorems speak about "transport never invoked" and step ordering.
-/

namespace Models

/-- Device status, the fields of `device.DeviceStatus` used in `l10.go`:
`IsConnected`, `IsActive`, `ErrorCount`, `LastError`, `LastUpdate`. -/
structure DeviceStatus where
  IsConnected : Bool
  IsActive : Bool
  ErrorCount : Nat
  LastError : String
  LastUpdate : Nat
deriving Repr, DecidableEq

/-- Wire message, the fields of `communication.RawMessage` used in
`l10.go`: interface name, arbitration id, data bytes. -/
structure RawMessage where
  Interface : String
  ID : Nat
  Data : List Nat
deriving Repr, DecidableEq

/-- A command as consumed by `ExecuteCommand`.  Modelled from the spec:
the `device` package is not in the sources; `device.Command` is "a
discriminated type identified by a kind tag (`SetFingerPose` |
`SetPalmPose`, extensible) carrying an opaque byte payload", exposing
`Type()` (here `typ`, since `Type` is reserved) and `Payload()`. -/
structure Command where
  typ : String
  payload : List Nat
deriving Repr, DecidableEq

/-- Modelled from the spec: `device.NewFingerPoseCommand` (missing
`device` package) builds the finger-pose command carrying the payload. -/
def NewFingerPoseCommand (p : List Nat) : Command :=
  ⟨"SetFingerPose", p⟩

/-- Modelled from the spec: `device.NewPalmPoseCommand` (missing
`device` package) builds the palm-pose command carrying the payload. -/
def NewPalmPoseCommand (p : List Nat) : Command :=
  ⟨"SetPalmPose", p⟩

/-- Modelled from the spec: `define.HAND_TYPE_RIGHT` (missing `define`
package).  The hand-side enum has exactly the two values Left/Right;
the concrete numerals are not in the sources, only distinctness is
relied on. -/
def HAND_TYPE_RIGHT : Nat := 1

/-- Modelled from the spec: `define.HAND_TYPE_LEFT` (missing `define`
package). -/
def HAND_TYPE_LEFT : Nat := 0

/-- The `L10Hand` fields the command pipeline reads or writes.  The
component registry, animation engine and preset manager live in missing
external packages; the preset catalog is passed in `Env` instead. -/
structure L10Hand where
  id : String
  model : String
  handType : Nat
  canInterface : String
  status : DeviceStatus
deriving Repr, DecidableEq

/-- Modelled from the spec: a preset-catalog entry (`device.PresetPose`,
missing `device` package): "fingerPose: 6-byte sequence, palmPose: 0 or
4-byte sequence, description: string". -/
structure PresetPose where
  FingerPose : List Nat
  PalmPose : List Nat
  Description : String
deriving Repr, DecidableEq

/-- An externally visible action of the pipeline: a transport send or a
`time.Sleep` of the given number of milliseconds. -/
inductive Event where
  | sent (m : RawMessage)
  | slept (ms : Nat)
deriving Repr, DecidableEq

/-- The external collaborators: the transport outcome function
(`none` = success, `some e` = failure with description `e`) and the
preset catalog (`device.PresetManager` keyed lookup, modelled from the
spec: "getPreset(name) → PresetPose | absent"). -/
structure Env where
  send : RawMessage → Option String
  presets : List (String × PresetPose)

/-- Modelled from the spec: `presetManager.GetPreset` of the missing
`device` package — look the name up in the read-only catalog. -/
def GetPreset (ps : List (String × PresetPose)) (name : String) :
    Option PresetPose :=
  (ps.find? (fun p => p.1 == name)).map (fun p => p.2)

/-- Outcome of a stateful hand method: the Go return value, the updated
hand, and the trace of external events it produced. -/
structure StepResult where
  res : Except String Unit
  hand : L10Hand
  trace : List Event
deriving Repr

/-- `perturb` from l10.go: `offset := rand.IntN(2*delta+1) - delta;
v := min(max(int(base)+offset, 0), 255); return byte(v)`.  The random
draw `rand.IntN (2*delta+1)` is `r % (2*delta+1)` for the supplied `r`. -/
def perturb (base : Nat) (delta : Nat) (r : Nat) : Nat :=
  (min (max ((base : Int) + ((((r % (2 * delta + 1) : Nat)) : Int) - (delta : Int))) 0) 255).toNat

/-- `commandToRawMessageUnsafe` from l10.go: switch on the command's
kind tag, prepend `0x01` (finger) or `0x04` (palm), enforce the 8-byte
CAN data cap, otherwise reject the kind; the arbitration id is the hand
type and the interface is the hand's CAN interface. -/
def commandToRawMessageUnsafe (h : L10Hand) (cmd : Command) :
    Except String RawMessage :=
  if cmd.typ = "SetFingerPose" then
    let data := 0x01 :: cmd.payload
    if data.length > 8 then
      .error "手指姿态数据过长"
    else
      .ok ⟨h.canInterface, h.handType, data⟩
  else if cmd.typ = "SetPalmPose" then
    let data := 0x04 :: cmd.payload
    if data.length > 8 then
      .error "手掌姿态数据过长"
    else
      .ok ⟨h.canInterface, h.handType, data⟩
  else
    .error ("L10 不支持的指令类型: " ++ cmd.typ)

/-- `ExecuteCommand` from l10.go: under the write lock, reject when not
connected or not active (status untouched, transport not contacted);
on encoder failure increment `ErrorCount`, set `LastError`, wrap the
error; otherwise send (3-second deadline absorbed into `env.send`); on
send failure increment `ErrorCount`, set `LastError`, wrap the error;
on success refresh `LastUpdate`. -/
def ExecuteCommand (env : Env) (now : Nat) (h : L10Hand) (cmd : Command) :
    StepResult :=
  if !h.status.IsConnected || !h.status.IsActive then
    ⟨.error ("设备 " ++ h.id ++ " 未连接或未激活"), h, []⟩
  else
    match commandToRawMessageUnsafe h cmd with
    | .error e =>
        ⟨.error ("转换指令失败：" ++ e),
         { h with status := { h.status with
             ErrorCount := h.status.ErrorCount + 1, LastError := e } },
         []⟩
    | .ok rawMsg =>
        match env.send rawMsg with
        | some e =>
            ⟨.error ("发送指令失败：" ++ e),
             { h with status := { h.status with
                 ErrorCount := h.status.ErrorCount + 1, LastError := e } },
             [.sent rawMsg]⟩
        | none =>
            ⟨.ok (),
             { h with status := { h.status with LastUpdate := now } },
             [.sent rawMsg]⟩

/-- `SetFingerPose` from l10.go: reject any payload whose length is not
6 before doing anything else; otherwise perturb each byte with delta 5
(the draw for index `i` is `rand i`), build the finger-pose command and
delegate to `ExecuteCommand`. -/
def SetFingerPose (env : Env) (now : Nat) (rand : Nat → Nat)
    (h : L10Hand) (pose : List Nat) : StepResult :=
  if pose.length ≠ 6 then
    ⟨.error "无效的手指姿态数据长度，需要 6 个字节", h, []⟩
  else
    let perturbedPose := pose.mapIdx (fun i v => perturb v 5 (rand i))
    ExecuteCommand env now h (NewFingerPoseCommand perturbedPose)

/-- `SetPalmPose` from l10.go: reject any payload whose length is not 4
before doing anything else; otherwise perturb each byte with delta 8,
build the palm-pose command and delegate to `ExecuteCommand`. -/
def SetPalmPose (env : Env) (now : Nat) (rand : Nat → Nat)
    (h : L10Hand) (pose : List Nat) : StepResult :=
  if pose.length ≠ 4 then
    ⟨.error "无效的手掌姿态数据长度，需要 4 个字节", h, []⟩
  else
    let perturbedPose := pose.mapIdx (fun i v => perturb v 8 (rand i))
    ExecuteCommand env now h (NewPalmPoseCommand perturbedPose)

/-- `ResetPose` from l10.go: issue the canonical finger pose
`{64,64,64,64,64,64}`; on failure return that error (palm step not
attempted); otherwise sleep 20 ms, issue the canonical palm pose
`{128,128,128,128}` and return its outcome. -/
def ResetPose (env : Env) (now : Nat) (rand1 rand2 : Nat → Nat)
    (h : L10Hand) : StepResult :=
  let defaultFingerPose : List Nat := [64, 64, 64, 64, 64, 64]
  let defaultPalmPose : List Nat := [128, 128, 128, 128]
  let r1 := SetFingerPose env now rand1 h defaultFingerPose
  match r1.res with
  | .error e => ⟨.error e, r1.hand, r1.trace⟩
  | .ok _ =>
      let r2 := SetPalmPose env now rand2 r1.hand defaultPalmPose
      ⟨r2.res, r2.hand, r1.trace ++ Event.slept 20 :: r2.trace⟩

/-- `ExecutePreset` from l10.go: look the name up in the catalog
(absence is an error, nothing else happens); run the finger step, a
failure is wrapped with the preset name and returned at once; when the
palm payload is non-empty, sleep 20 ms and run the palm step, wrapping
a failure; success after the applicable steps. -/
def ExecutePreset (env : Env) (now : Nat) (rand1 rand2 : Nat → Nat)
    (h : L10Hand) (presetName : String) : StepResult :=
  match GetPreset env.presets presetName with
  | none => ⟨.error ("预设姿势 '" ++ presetName ++ "' 不存在"), h, []⟩
  | some preset =>
      let r1 := SetFingerPose env now rand1 h preset.FingerPose
      match r1.res with
      | .error e =>
          ⟨.error ("执行预设姿势 '" ++ presetName ++ "' 的手指姿态失败: " ++ e),
           r1.hand, r1.trace⟩
      | .ok _ =>
          if preset.PalmPose.length > 0 then
            let r2 := SetPalmPose env now rand2 r1.hand preset.PalmPose
            match r2.res with
            | .error e =>
                ⟨.error ("执行预设姿势 '" ++ presetName ++ "' 的手掌姿态失败: " ++ e),
                 r2.hand, r1.trace ++ Event.slept 20 :: r2.trace⟩
            | .ok _ =>
                ⟨.ok (), r2.hand, r1.trace ++ Event.slept 20 :: r2.trace⟩
          else
            ⟨.ok (), r1.hand, r1.trace⟩

/-- `Connect` from l10.go: unconditionally set both flags true, refresh
the timestamp, return nil. -/
def Connect (now : Nat) (h : L10Hand) : Except String Unit × L10Hand :=
  (.ok (), { h with status := { h.status with
      IsConnected := true, IsActive := true, LastUpdate := now } })

/-- `Disconnect` from l10.go: unconditionally clear both flags, refresh
the timestamp, return nil. -/
def Disconnect (now : Nat) (h : L10Hand) : Except String Unit × L10Hand :=
  (.ok (), { h with status := { h.status with
      IsConnected := false, IsActive := false, LastUpdate := now } })

/-- `SetHandType` from l10.go: reject a value that is neither
left nor right; otherwise store it. -/
def SetHandType (h : L10Hand) (handType : Nat) :
    Except String Unit × L10Hand :=
  if handType ≠ HAND_TYPE_LEFT ∧ handType ≠ HAND_TYPE_RIGHT then
    (.error ("无效的手型：" ++ toString handType), h)
  else
    (.ok (), { h with handType := handType })

/-- A dynamic configuration value as seen through Go's
`config[key].(string)` type assertion: a string, or anything else. -/
inductive ConfigVal where
  | str (s : String)
  | nonStr
deriving Repr, DecidableEq

/-- Go's `v, ok := config[key].(string)`: `some s` exactly when the key
is present and its value is the string `s`. -/
def configGetString (config : List (String × ConfigVal)) (key : String) :
    Option String :=
  match (config.find? (fun p => p.1 == key)).map (fun p => p.2) with
  | some (ConfigVal.str s) => some s
  | _ => none

/-- `NewL10Hand` from l10.go, restricted to the hand fields the claims
concern: require `id` and `can_service_url` (string-typed) or fail with
the corresponding error; default `can_interface` to "can0"; hand type
is left exactly when `hand_type` is the string "left", otherwise right
(missing key, non-string value, and any other string all fall through
to the default with no error); the initial status is connected, active,
timestamp now.  Component/animation/preset registration acts only on
the missing external packages and never fails in the source, so it is
not represented. -/
def NewL10Hand (config : List (String × ConfigVal)) (now : Nat) :
    Except String L10Hand :=
  match configGetString config "id" with
  | none => .error "缺少设备 ID 配置"
  | some id =>
    match configGetString config "can_service_url" with
    | none => .error "缺少 can 服务 URL 配置"
    | some _ =>
      let canInterface := (configGetString config "can_interface").getD "can0"
      let handType :=
        match configGetString config "hand_type" with
        | some s => if s = "left" then HAND_TYPE_LEFT else HAND_TYPE_RIGHT
        | none => HAND_TYPE_RIGHT
      .ok { id := id, model := "L10", handType := handType,
            canInterface := canInterface,
            status := { IsConnected := true, IsActive := true,
                        ErrorCount := 0, LastError := "",
                        LastUpdate := now } }

/-! Concrete values used by witnesses and counterexamples. -/

/-- A status that is connected and active with clean error bookkeeping. -/
def readyStatus : DeviceStatus :=
  { IsConnected := true, IsActive := true, ErrorCount := 0,
    LastError := "", LastUpdate := 0 }

/-- A connected, active sample hand. -/
def sampleHand : L10Hand :=
  { id := "dev1", model := "L10", handType := HAND_TYPE_RIGHT,
    canInterface := "can0", status := readyStatus }

/-- The sample hand after its flags were cleared. -/
def downHand : L10Hand :=
  { sampleHand with
    status := { readyStatus with IsConnected := false, IsActive := false } }

/-- A catalog entry with a 4-byte palm payload. -/
def fistPreset : PresetPose :=
  { FingerPose := [10, 20, 30, 40, 50, 60],
    PalmPose := [100, 110, 120, 130], Description := "fist" }

/-- A catalog entry with an empty palm payload. -/
def pointPreset : PresetPose :=
  { FingerPose := [20, 20, 20, 20, 20, 20],
    PalmPose := [], Description := "point" }

/-- An environment whose transport always succeeds. -/
def envOk : Env :=
  { send := fun _ => none,
    presets := [("fist", fistPreset), ("point", pointPreset)] }

/-- An environment whose transport always fails (e.g. a timeout). -/
def envDown : Env :=
  { send := fun _ => some "请求超时",
    presets := [("fist", fistPreset), ("point", pointPreset)] }

/-! Helper lemmas shared by several proofs. -/

/-- A successful `ExecuteCommand` run encoded the command and sent it:
the trace is exactly one transport invocation. -/
theorem ExecuteCommand_res_ok (env : Env) (now : Nat) (h : L10Hand)
    (cmd : Command)
    (hok : (ExecuteCommand env now h cmd).res = .ok ()) :
    ∃ m, commandToRawMessageUnsafe h cmd = .ok m ∧
      (ExecuteCommand env now h cmd).trace = [Event.sent m] := by
  unfold ExecuteCommand at hok ⊢
  by_cases hc : (!h.status.IsConnected || !h.status.IsActive) = true
  · simp [hc] at hok
  · rw [Bool.not_eq_true] at hc
    cases henc : commandToRawMessageUnsafe h cmd with
    | error e => simp [hc, henc] at hok
    | ok m =>
      cases hs : env.send m with
      | some e => simp [hc, henc, hs] at hok
      | none => exact ⟨m, rfl, by simp [hc, henc, hs]⟩

/-- A successful `SetFingerPose` run produced exactly one transport
invocation. -/
theorem SetFingerPose_res_ok (env : Env) (now : Nat) (rand : Nat → Nat)
    (h : L10Hand) (pose : List Nat)
    (hok : (SetFingerPose env now rand h pose).res = .ok ()) :
    ∃ m, (SetFingerPose env now rand h pose).trace = [Event.sent m] := by
  unfold SetFingerPose at hok ⊢
  by_cases hl : pose.length = 6
  · simp only [hl, ne_eq, not_true_eq_false, if_false] at hok ⊢
    obtain ⟨m, _, ht⟩ := ExecuteCommand_res_ok _ _ _ _ hok
    exact ⟨m, ht⟩
  · simp [hl] at hok

/-- A successful `SetPalmPose` run produced exactly one transport
invocation. -/
theorem SetPalmPose_res_ok (env : Env) (now : Nat) (rand : Nat → Nat)
    (h : L10Hand) (pose : List Nat)
    (hok : (SetPalmPose env now rand h pose).res = .ok ()) :
    ∃ m, (SetPalmPose env now rand h pose).trace = [Event.sent m] := by
  unfold SetPalmPose at hok ⊢
  by_cases hl : pose.length = 4
  · simp only [hl, ne_eq, not_true_eq_false, if_false] at hok ⊢
    obtain ⟨m, _, ht⟩ := ExecuteCommand_res_ok _ _ _ _ hok
    exact ⟨m, ht⟩
  · simp [hl] at hok

/-! Claim theorems. -/

/-- C2: a `SetFingerPose` call with a payload whose length is not 6
fails with the invalid-length error before anything happens — the hand
(all status fields, `ErrorCount` included) is unchanged and the
transport is never invoked; a `SetPalmPose` call with length ≠ 4 fails
analogously. -/
theorem C2_length_validation (env : Env) (now : Nat) (rand : Nat → Nat)
    (h : L10Hand) :
    (∀ pose : List Nat, pose.length ≠ 6 →
       SetFingerPose env now rand h pose =
         ⟨.error "无效的手指姿态数据长度，需要 6 个字节", h, []⟩) ∧
    (∀ pose : List Nat, pose.length ≠ 4 →
       SetPalmPose env now rand h pose =
         ⟨.error "无效的手掌姿态数据长度，需要 4 个字节", h, []⟩) := by
  constructor
  · intro pose hp
    unfold SetFingerPose
    simp [hp]
  · intro pose hp
    unfold SetPalmPose
    simp [hp]

/-- C2 witness: a 5-byte finger payload and a 3-byte palm payload are
both rejected with the hand unchanged and an empty trace. -/
theorem C2_length_validation_witness :
    SetFingerPose envOk 0 (fun _ => 0) sampleHand [1, 2, 3, 4, 5] =
      ⟨.error "无效的手指姿态数据长度，需要 6 个字节", sampleHand, []⟩ ∧
    SetPalmPose envOk 0 (fun _ => 0) sampleHand [1, 2, 3] =
      ⟨.error "无效的手掌姿态数据长度，需要 4 个字节", sampleHand, []⟩ :=
  ⟨(C2_length_validation envOk 0 (fun _ => 0) sampleHand).1
      [1, 2, 3, 4, 5] (by decide),
   (C2_length_validation envOk 0 (fun _ => 0) sampleHand).2
      [1, 2, 3] (by decide)⟩

/-- C3: the encoder maps a finger-pose command with a 6-byte payload to
the frame `0x01 :: payload` (7 bytes) on the hand's interface with the
hand type as arbitration id; a palm-pose command with a 4-byte payload
to `0x04 :: payload` (5 bytes); and any other command kind to the
unsupported-command error, producing no frame. -/
theorem C3_encoder (h : L10Hand) :
    (∀ p : List Nat, p.length = 6 →
       commandToRawMessageUnsafe h (NewFingerPoseCommand p) =
         .ok ⟨h.canInterface, h.handType, 0x01 :: p⟩ ∧
       (0x01 :: p).length = 7) ∧
    (∀ p : List Nat, p.length = 4 →
       commandToRawMessageUnsafe h (NewPalmPoseCommand p) =
         .ok ⟨h.canInterface, h.handType, 0x04 :: p⟩ ∧
       (0x04 :: p).length = 5) ∧
    (∀ cmd : Command, cmd.typ ≠ "SetFingerPose" → cmd.typ ≠ "SetPalmPose" →
       commandToRawMessageUnsafe h cmd =
         .error ("L10 不支持的指令类型: " ++ cmd.typ)) := by
  refine ⟨?_, ?_, ?_⟩
  · intro p hp
    unfold commandToRawMessageUnsafe NewFingerPoseCommand
    simp [hp]
  · intro p hp
    unfold commandToRawMessageUnsafe NewPalmPoseCommand
    simp [hp]
  · intro cmd h1 h2
    unfold commandToRawMessageUnsafe
    simp [h1, h2]

/-- C3 witness: encoding concrete finger/palm commands on the sample
hand yields the prefixed frames, and an unknown kind is rejected. -/
theorem C3_encoder_witness :
    commandToRawMessageUnsafe sampleHand
        (NewFingerPoseCommand [1, 2, 3, 4, 5, 6]) =
      .ok ⟨sampleHand.canInterface, sampleHand.handType,
           [1, 1, 2, 3, 4, 5, 6]⟩ ∧
    commandToRawMessageUnsafe sampleHand
        (NewPalmPoseCommand [9, 9, 9, 9]) =
      .ok ⟨sampleHand.canInterface, sampleHand.handType, [4, 9, 9, 9, 9]⟩ ∧
    commandToRawMessageUnsafe sampleHand (Command.mk "Wave" []) =
      .error "L10 不支持的指令类型: Wave" :=
  ⟨((C3_encoder sampleHand).1 [1, 2, 3, 4, 5, 6] (by decide)).1,
   ((C3_encoder sampleHand).2.1 [9, 9, 9, 9] (by decide)).1,
   (C3_encoder sampleHand).2.2 (Command.mk "Wave" []) (by decide) (by decide)⟩

/-- C4: dispatching any command while the device is not connected or
not active fails with the device-unavailable error, leaves the hand
(hence every status field) unchanged, and never invokes the transport. -/
theorem C4_device_unavailable (env : Env) (now : Nat) (h : L10Hand)
    (cmd : Command)
    (hna : h.status.IsConnected = false ∨ h.status.IsActive = false) :
    ExecuteCommand env now h cmd =
      ⟨.error ("设备 " ++ h.id ++ " 未连接或未激活"), h, []⟩ := by
  unfold ExecuteCommand
  rcases hna with h1 | h1 <;> simp [h1]

/-- C4 witness: dispatch on the disconnected sample hand fails without
touching the hand or the transport. -/
theorem C4_device_unavailable_witness :
    ExecuteCommand envOk 0 downHand (NewFingerPoseCommand [1, 2, 3, 4, 5, 6]) =
      ⟨.error ("设备 " ++ downHand.id ++ " 未连接或未激活"), downHand, []⟩ :=
  C4_device_unavailable envOk 0 downHand
    (NewFingerPoseCommand [1, 2, 3, 4, 5, 6]) (Or.inl (by decide))

/-- C9: `Connect` and `Disconnect` are idempotent — a second call with
the same timestamp source yields exactly the hand the single call
yields — neither has a failure path, and `Connect` sets both flags and
refreshes the timestamp. -/
theorem C9_connect_disconnect_idempotent (h : L10Hand) (t1 t2 : Nat) :
    Connect t2 (Connect t1 h).2 = Connect t2 h ∧
    Disconnect t2 (Disconnect t1 h).2 = Disconnect t2 h ∧
    (Connect t1 h).1 = .ok () ∧
    (Disconnect t1 h).1 = .ok () ∧
    (Connect t1 h).2.status.IsConnected = true ∧
    (Connect t1 h).2.status.IsActive = true ∧
    (Connect t1 h).2.status.LastUpdate = t1 ∧
    (Disconnect t1 h).2.status.IsConnected = false ∧
    (Disconnect t1 h).2.status.IsActive = false ∧
    (Disconnect t1 h).2.status.LastUpdate = t1 :=
  ⟨rfl, rfl, rfl, rfl, rfl, rfl, rfl, rfl, rfl, rfl⟩

/-- C5: when the device is connected and active, the command encodes,
and the transport send fails with description `e` (a timeout reports
the same way), the dispatch fails with the transmission error,
`ErrorCount` grows by exactly 1, `LastError` becomes `e` (non-empty
whenever the description is), and neither connectivity flag changes. -/
theorem C5_transport_failure (env : Env) (now : Nat) (h : L10Hand)
    (cmd : Command) (m : RawMessage) (e : String)
    (hc : h.status.IsConnected = true) (ha : h.status.IsActive = true)
    (henc : commandToRawMessageUnsafe h cmd = .ok m)
    (hsend : env.send m = some e) (he : e ≠ "") :
    (ExecuteCommand env now h cmd).res = .error ("发送指令失败：" ++ e) ∧
    (ExecuteCommand env now h cmd).hand.status.ErrorCount =
      h.status.ErrorCount + 1 ∧
    (ExecuteCommand env now h cmd).hand.status.LastError = e ∧
    (ExecuteCommand env now h cmd).hand.status.LastError ≠ "" ∧
    (ExecuteCommand env now h cmd).hand.status.IsConnected =
      h.status.IsConnected ∧
    (ExecuteCommand env now h cmd).hand.status.IsActive =
      h.status.IsActive := by
  unfold ExecuteCommand
  simp [hc, ha, henc, hsend, he]

/-- C5 witness: with the always-failing transport, dispatching a valid
finger command on the ready sample hand increments `ErrorCount` from 0
to 1 and records the failure description. -/
theorem C5_transport_failure_witness :
    (ExecuteCommand envDown 0 sampleHand
        (NewFingerPoseCommand [1, 2, 3, 4, 5, 6])).res =
      .error ("发送指令失败：" ++ "请求超时") ∧
    (ExecuteCommand envDown 0 sampleHand
        (NewFingerPoseCommand [1, 2, 3, 4, 5, 6])).hand.status.ErrorCount =
      sampleHand.status.ErrorCount + 1 ∧
    (ExecuteCommand envDown 0 sampleHand
        (NewFingerPoseCommand [1, 2, 3, 4, 5, 6])).hand.status.LastError =
      "请求超时" ∧
    (ExecuteCommand envDown 0 sampleHand
        (NewFingerPoseCommand [1, 2, 3, 4, 5, 6])).hand.status.LastError ≠ "" ∧
    (ExecuteCommand envDown 0 sampleHand
        (NewFingerPoseCommand [1, 2, 3, 4, 5, 6])).hand.status.IsConnected =
      sampleHand.status.IsConnected ∧
    (ExecuteCommand envDown 0 sampleHand
        (NewFingerPoseCommand [1, 2, 3, 4, 5, 6])).hand.status.IsActive =
      sampleHand.status.IsActive :=
  C5_transport_failure envDown 0 sampleHand
    (NewFingerPoseCommand [1, 2, 3, 4, 5, 6])
    ⟨"can0", HAND_TYPE_RIGHT, [1, 1, 2, 3, 4, 5, 6]⟩ "请求超时"
    rfl rfl rfl rfl (by decide)

/-- C6: any byte perturbed with any `maxDelta` and any draw lands in
`[max(0, value − maxDelta), min(255, value + maxDelta)]` (the lower
bound is truncated subtraction, which is exactly `max 0 (value − Δ)`);
`SetFingerPose` applies `perturb` to each byte independently with
delta 5 and `SetPalmPose` with delta 8. -/
theorem C6_perturbation_bounds :
    (∀ base delta r : Nat, base ≤ 255 →
       base - delta ≤ perturb base delta r ∧
       perturb base delta r ≤ min 255 (base + delta)) ∧
    (∀ (env : Env) (now : Nat) (rand : Nat → Nat) (h : L10Hand)
       (pose : List Nat), pose.length = 6 →
       SetFingerPose env now rand h pose =
         ExecuteCommand env now h (NewFingerPoseCommand
           (pose.mapIdx (fun i v => perturb v 5 (rand i))))) ∧
    (∀ (env : Env) (now : Nat) (rand : Nat → Nat) (h : L10Hand)
       (pose : List Nat), pose.length = 4 →
       SetPalmPose env now rand h pose =
         ExecuteCommand env now h (NewPalmPoseCommand
           (pose.mapIdx (fun i v => perturb v 8 (rand i))))) := by
  refine ⟨?_, ?_, ?_⟩
  · intro base delta r hb
    have hm : r % (2 * delta + 1) < 2 * delta + 1 := Nat.mod_lt _ (by omega)
    unfold perturb
    omega
  · intro env now rand h pose hp
    unfold SetFingerPose
    simp [hp]
  · intro env now rand h pose hp
    unfold SetPalmPose
    simp [hp]

/-- C6 witness: a concrete draw keeps byte 3 within `[0, 8]` for
delta 5, and a valid 6-byte pose goes through the per-byte delta-5
perturbation. -/
theorem C6_perturbation_bounds_witness :
    (3 - 5 ≤ perturb 3 5 0 ∧ perturb 3 5 0 ≤ min 255 (3 + 5)) ∧
    SetFingerPose envOk 0 (fun _ => 0) sampleHand [10, 20, 30, 40, 50, 60] =
      ExecuteCommand envOk 0 sampleHand (NewFingerPoseCommand
        ([10, 20, 30, 40, 50, 60].mapIdx
          (fun i v => perturb v 5 ((fun _ => 0) i)))) :=
  ⟨C6_perturbation_bounds.1 3 5 0 (by decide),
   C6_perturbation_bounds.2.1 envOk 0 (fun _ => 0) sampleHand
     [10, 20, 30, 40, 50, 60] (by decide)⟩

/-- C10: construction with well-typed `id` and `can_service_url`
succeeds with hand type right whenever the `hand_type` entry is
missing, not a string, or any string other than "left" — no error is
reported for the unrecognized side value — while `SetHandType` rejects
every value outside {left, right} (hand unchanged) and accepts both
enum values. -/
theorem C10_hand_type_default :
    (∀ (config : List (String × ConfigVal)) (now : Nat) (i u : String),
       configGetString config "id" = some i →
       configGetString config "can_service_url" = some u →
       (∀ s, configGetString config "hand_type" = some s → s ≠ "left") →
       ∃ hd, NewL10Hand config now = .ok hd ∧
         hd.handType = HAND_TYPE_RIGHT) ∧
    (∀ (h : L10Hand) (ht : Nat),
       ht ≠ HAND_TYPE_LEFT → ht ≠ HAND_TYPE_RIGHT →
       SetHandType h ht = (.error ("无效的手型：" ++ toString ht), h)) ∧
    (∀ h : L10Hand,
       SetHandType h HAND_TYPE_LEFT =
         (.ok (), { h with handType := HAND_TYPE_LEFT }) ∧
       SetHandType h HAND_TYPE_RIGHT =
         (.ok (), { h with handType := HAND_TYPE_RIGHT })) := by
  refine ⟨?_, ?_, ?_⟩
  · intro config now i u hi hu hs
    unfold NewL10Hand
    rw [hi, hu]
    cases hht : configGetString config "hand_type" with
    | none => exact ⟨_, rfl, rfl⟩
    | some s =>
        have : s ≠ "left" := hs s hht
        simp only [this, if_false]
        exact ⟨_, rfl, rfl⟩
  · intro h ht h1 h2
    unfold SetHandType
    simp [h1, h2]
  · intro h
    constructor <;> (unfold SetHandType; simp [HAND_TYPE_LEFT, HAND_TYPE_RIGHT])

/-- C10 witness: a config carrying a non-string `hand_type` and one
carrying the unrecognized string "LEFT" both construct a right hand,
and `SetHandType` rejects the out-of-range value 7. -/
theorem C10_hand_type_default_witness :
    (∃ hd, NewL10Hand
        [("id", ConfigVal.str "dev1"),
         ("can_service_url", ConfigVal.str "http://can"),
         ("hand_type", ConfigVal.nonStr)] 0 = .ok hd ∧
        hd.handType = HAND_TYPE_RIGHT) ∧
    (∃ hd, NewL10Hand
        [("id", ConfigVal.str "dev1"),
         ("can_service_url", ConfigVal.str "http://can"),
         ("hand_type", ConfigVal.str "LEFT")] 0 = .ok hd ∧
        hd.handType = HAND_TYPE_RIGHT) ∧
    SetHandType sampleHand 7 = (.error ("无效的手型：" ++ toString 7), sampleHand) :=
  ⟨C10_hand_type_default.1
      [("id", ConfigVal.str "dev1"),
       ("can_service_url", ConfigVal.str "http://can"),
       ("hand_type", ConfigVal.nonStr)] 0 "dev1" "http://can"
      rfl rfl (by intro s hcontra; simp [configGetString] at hcontra),
   C10_hand_type_default.1
      [("id", ConfigVal.str "dev1"),
       ("can_service_url", ConfigVal.str "http://can"),
       ("hand_type", ConfigVal.str "LEFT")] 0 "dev1" "http://can"
      rfl rfl (by intro s hcontra; simp [configGetString] at hcontra; subst hcontra; decide),
   C10_hand_type_default.2.1 sampleHand 7 (by decide) (by decide)⟩

/-- C1 counterexample: dispatching on the disconnected sample hand is a
failing dispatch attempt, yet `ErrorCount` stays 0 and `LastError`
stays empty — refuting "every dispatch attempt that fails increments
errorCount and sets lastError". -/
theorem C1_counterexample :
    (ExecuteCommand envOk 0 downHand
        (NewFingerPoseCommand [1, 2, 3, 4, 5, 6])).res =
      .error "设备 dev1 未连接或未激活" ∧
    (ExecuteCommand envOk 0 downHand
        (NewFingerPoseCommand [1, 2, 3, 4, 5, 6])).hand.status.ErrorCount = 0 ∧
    downHand.status.ErrorCount = 0 ∧
    (ExecuteCommand envOk 0 downHand
        (NewFingerPoseCommand [1, 2, 3, 4, 5, 6])).hand.status.LastError = "" ∧
    downHand.status.LastError = "" :=
  ⟨rfl, rfl, rfl, rfl, rfl⟩

/-- C1 (amended): a dispatch proceeds only when both `IsConnected` and
`IsActive` are true — otherwise it fails leaving the status untouched
and the transport uncontacted; every successful dispatch refreshes
`LastUpdate`; and every dispatch that fails after passing the
availability check (encoder failure or transport failure) increments
`ErrorCount` by 1 and sets `LastError` to the failure description. -/
theorem C1_amended (env : Env) (now : Nat) (h : L10Hand) (cmd : Command) :
    ((h.status.IsConnected && h.status.IsActive) = false →
       ExecuteCommand env now h cmd =
         ⟨.error ("设备 " ++ h.id ++ " 未连接或未激活"), h, []⟩) ∧
    ((ExecuteCommand env now h cmd).res = .ok () →
       (ExecuteCommand env now h cmd).hand.status.LastUpdate = now) ∧
    (∀ e, (h.status.IsConnected && h.status.IsActive) = true →
       commandToRawMessageUnsafe h cmd = .error e →
       (ExecuteCommand env now h cmd).hand.status.ErrorCount =
         h.status.ErrorCount + 1 ∧
       (ExecuteCommand env now h cmd).hand.status.LastError = e ∧
       (ExecuteCommand env now h cmd).res = .error ("转换指令失败：" ++ e)) ∧
    (∀ m e, (h.status.IsConnected && h.status.IsActive) = true →
       commandToRawMessageUnsafe h cmd = .ok m → env.send m = some e →
       (ExecuteCommand env now h cmd).hand.status.ErrorCount =
         h.status.ErrorCount + 1 ∧
       (ExecuteCommand env now h cmd).hand.status.LastError = e ∧
       (ExecuteCommand env now h cmd).res = .error ("发送指令失败：" ++ e)) := by
  refine ⟨?_, ?_, ?_, ?_⟩
  · intro hf
    cases hic : h.status.IsConnected <;> cases hia : h.status.IsActive <;>
      simp_all [ExecuteCommand]
  · intro hok
    unfold ExecuteCommand at hok ⊢
    by_cases hcb : (!h.status.IsConnected || !h.status.IsActive) = true
    · simp [hcb] at hok
    · rw [Bool.not_eq_true] at hcb
      cases henc : commandToRawMessageUnsafe h cmd with
      | error e => simp [hcb, henc] at hok
      | ok m =>
        cases hs : env.send m with
        | some e => simp [hcb, henc, hs] at hok
        | none => simp [hcb, henc, hs]
  · intro e hflag henc
    rw [Bool.and_eq_true] at hflag
    unfold ExecuteCommand
    simp [hflag.1, hflag.2, henc]
  · intro m e hflag henc hsend
    rw [Bool.and_eq_true] at hflag
    unfold ExecuteCommand
    simp [hflag.1, hflag.2, henc, hsend]

/-- C1 (amended) witness: with the failing transport, a valid finger
dispatch on the ready sample hand increments `ErrorCount` from 0 to 1,
records the description, and fails with the transmission error. -/
theorem C1_amended_witness :
    (ExecuteCommand envDown 0 sampleHand
        (NewFingerPoseCommand [1, 2, 3, 4, 5, 6])).hand.status.ErrorCount =
      sampleHand.status.ErrorCount + 1 ∧
    (ExecuteCommand envDown 0 sampleHand
        (NewFingerPoseCommand [1, 2, 3, 4, 5, 6])).hand.status.LastError =
      "请求超时" ∧
    (ExecuteCommand envDown 0 sampleHand
        (NewFingerPoseCommand [1, 2, 3, 4, 5, 6])).res =
      .error ("发送指令失败：" ++ "请求超时") :=
  (C1_amended envDown 0 sampleHand
      (NewFingerPoseCommand [1, 2, 3, 4, 5, 6])).2.2.2
    ⟨"can0", HAND_TYPE_RIGHT, [1, 1, 2, 3, 4, 5, 6]⟩ "请求超时" rfl rfl rfl

/-- C7: preset execution — an absent name fails with the not-found
error, hand untouched, transport never invoked; a present preset runs
the finger step first, a failing finger step returns its wrapped error
at once with no palm activity; when the finger step succeeds, an empty
palm payload means the run ends there with exactly one transport
invocation, a non-empty palm payload means a 20 ms sleep then the palm
step, and when both steps succeed the trace is exactly finger send,
sleep 20, palm send — two invocations in finger-then-palm order. -/
theorem C7_execute_preset (env : Env) (now : Nat) (rand1 rand2 : Nat → Nat)
    (h : L10Hand) (name : String) :
    (GetPreset env.presets name = none →
       ExecutePreset env now rand1 rand2 h name =
         ⟨.error ("预设姿势 '" ++ name ++ "' 不存在"), h, []⟩) ∧
    (∀ p, GetPreset env.presets name = some p →
       (∀ e, (SetFingerPose env now rand1 h p.FingerPose).res = .error e →
          ExecutePreset env now rand1 rand2 h name =
            ⟨.error ("执行预设姿势 '" ++ name ++ "' 的手指姿态失败: " ++ e),
             (SetFingerPose env now rand1 h p.FingerPose).hand,
             (SetFingerPose env now rand1 h p.FingerPose).trace⟩) ∧
       ((SetFingerPose env now rand1 h p.FingerPose).res = .ok () →
          (p.PalmPose = [] →
             ExecutePreset env now rand1 rand2 h name =
               ⟨.ok (), (SetFingerPose env now rand1 h p.FingerPose).hand,
                (SetFingerPose env now rand1 h p.FingerPose).trace⟩ ∧
             ∃ m1, (ExecutePreset env now rand1 rand2 h name).trace =
               [Event.sent m1]) ∧
          (p.PalmPose ≠ [] →
             (ExecutePreset env now rand1 rand2 h name).trace =
               (SetFingerPose env now rand1 h p.FingerPose).trace ++
                 Event.slept 20 ::
                 (SetPalmPose env now rand2
                   (SetFingerPose env now rand1 h p.FingerPose).hand
                   p.PalmPose).trace) ∧
          (p.PalmPose ≠ [] →
             (SetPalmPose env now rand2
                (SetFingerPose env now rand1 h p.FingerPose).hand
                p.PalmPose).res = .ok () →
             ∃ m1 m2,
               (ExecutePreset env now rand1 rand2 h name).trace =
                 [Event.sent m1, Event.slept 20, Event.sent m2] ∧
               (ExecutePreset env now rand1 rand2 h name).res = .ok ()))) := by
  refine ⟨?_, fun p hp => ⟨?_, fun hok => ⟨?_, ?_, ?_⟩⟩⟩
  · intro hnone
    simp only [ExecutePreset, hnone]
  · intro e he
    simp only [ExecutePreset, hp, he]
  · intro hpe
    have h1 : ExecutePreset env now rand1 rand2 h name =
        ⟨.ok (), (SetFingerPose env now rand1 h p.FingerPose).hand,
         (SetFingerPose env now rand1 h p.FingerPose).trace⟩ := by
      simp only [ExecutePreset, hp, hok, hpe]
      simp
    obtain ⟨m1, hm1⟩ := SetFingerPose_res_ok env now rand1 h p.FingerPose hok
    exact ⟨h1, m1, by rw [h1, hm1]⟩
  · intro hne
    have hlen : 0 < p.PalmPose.length := List.length_pos.mpr hne
    simp only [ExecutePreset, hp, hok, gt_iff_lt, hlen, if_true]
    cases hr2 : (SetPalmPose env now rand2
        (SetFingerPose env now rand1 h p.FingerPose).hand p.PalmPose).res <;>
      simp [hr2]
  · intro hne hpok
    have hlen : 0 < p.PalmPose.length := List.length_pos.mpr hne
    obtain ⟨m1, hm1⟩ := SetFingerPose_res_ok env now rand1 h p.FingerPose hok
    obtain ⟨m2, hm2⟩ := SetPalmPose_res_ok env now rand2
      (SetFingerPose env now rand1 h p.FingerPose).hand p.PalmPose hpok
    refine ⟨m1, m2, ?_, ?_⟩ <;>
      simp [ExecutePreset, hp, hok, gt_iff_lt, hlen, hpok, hm1, hm2]

/-- C7 witness: running the "fist" preset (4-byte palm payload) on the
ready sample hand with the always-succeeding transport produces the
finger trace, then the 20 ms sleep, then the palm trace. -/
theorem C7_execute_preset_witness :
    (ExecutePreset envOk 0 (fun _ => 0) (fun _ => 0) sampleHand "fist").trace =
      (SetFingerPose envOk 0 (fun _ => 0) sampleHand
          fistPreset.FingerPose).trace ++
        Event.slept 20 ::
        (SetPalmPose envOk 0 (fun _ => 0)
          (SetFingerPose envOk 0 (fun _ => 0) sampleHand
            fistPreset.FingerPose).hand
          fistPreset.PalmPose).trace :=
  (((C7_execute_preset envOk 0 (fun _ => 0) (fun _ => 0) sampleHand
      "fist").2 fistPreset rfl).2 rfl).2.1 (by decide)

/-- C8: `ResetPose` first issues the canonical finger pose
`{64,64,64,64,64,64}`; if that step fails its error is returned
unchanged and the palm step never happens (the whole trace is the
finger step's trace); if it succeeds, the run sleeps 20 ms and then
issues the canonical palm pose `{128,128,128,128}`, returning the palm
step's outcome. -/
theorem C8_reset_pose (env : Env) (now : Nat) (rand1 rand2 : Nat → Nat)
    (h : L10Hand) :
    (∀ e, (SetFingerPose env now rand1 h [64, 64, 64, 64, 64, 64]).res =
        .error e →
       ResetPose env now rand1 rand2 h =
         ⟨.error e,
          (SetFingerPose env now rand1 h [64, 64, 64, 64, 64, 64]).hand,
          (SetFingerPose env now rand1 h [64, 64, 64, 64, 64, 64]).trace⟩) ∧
    ((SetFingerPose env now rand1 h [64, 64, 64, 64, 64, 64]).res = .ok () →
       ResetPose env now rand1 rand2 h =
         ⟨(SetPalmPose env now rand2
             (SetFingerPose env now rand1 h [64, 64, 64, 64, 64, 64]).hand
             [128, 128, 128, 128]).res,
          (SetPalmPose env now rand2
             (SetFingerPose env now rand1 h [64, 64, 64, 64, 64, 64]).hand
             [128, 128, 128, 128]).hand,
          (SetFingerPose env now rand1 h [64, 64, 64, 64, 64, 64]).trace ++
            Event.slept 20 ::
            (SetPalmPose env now rand2
              (SetFingerPose env now rand1 h [64, 64, 64, 64, 64, 64]).hand
              [128, 128, 128, 128]).trace⟩) := by
  constructor
  · intro e he
    simp only [ResetPose, he]
  · intro hok
    simp only [ResetPose, hok]

/-- C8 witness: on the ready sample hand with the always-succeeding
transport, `ResetPose` equals the canonical finger step followed by the
20 ms sleep and the canonical palm step. -/
theorem C8_reset_pose_witness :
    ResetPose envOk 0 (fun _ => 0) (fun _ => 0) sampleHand =
      ⟨(SetPalmPose envOk 0 (fun _ => 0)
          (SetFingerPose envOk 0 (fun _ => 0) sampleHand
            [64, 64, 64, 64, 64, 64]).hand
          [128, 128, 128, 128]).res,
       (SetPalmPose envOk 0 (fun _ => 0)
          (SetFingerPose envOk 0 (fun _ => 0) sampleHand
            [64, 64, 64, 64, 64, 64]).hand
          [128, 128, 128, 128]).hand,
       (SetFingerPose envOk 0 (fun _ => 0) sampleHand
          [64, 64, 64, 64, 64, 64]).trace ++
         Event.slept 20 ::
         (SetPalmPose envOk 0 (fun _ => 0)
           (SetFingerPose envOk 0 (fun _ => 0) sampleHand
             [64, 64, 64, 64, 64, 64]).hand
           [128, 128, 128, 128]).trace⟩ :=
  (C8_reset_pose envOk 0 (fun _ => 0) (fun _ => 0) sampleHand).2 rfl

end Models
